import Mathlib

/-!
Shallow embedding of `src/calculate_ph_and_alkalinity_fixed.py` (the superseding
pH/alkalinity module of the adm1-mcp repository) and proofs about it.

Python floats are modelled as real numbers; the non-finite float values that the
source filters out with `np.isfinite` are modelled by a dedicated constructor of
`RawConc`.  The external scipy root finder `brenth` is modelled by its documented
interface (its outcome is a parameter), since its code is not part of this
repository.  All other definitions are direct transcriptions of the Python
source, function by function.
-/

noncomputable section

namespace ADM1

/-- One raw value read from a stream's concentration accessor
(`float(stream.iconc[comp_id])` in the source): a finite float, a non-finite
float (`nan`/`inf`, rejected by `np.isfinite`), or a lookup that raised
`KeyError`/`ValueError`/`TypeError`. -/
inductive RawConc
  | finite (x : ℝ)
  | nonfinite
  | invalid

/-- Model of the qsdsan `WasteStream` object: exactly the members the module
reads (`phase`, `components.IDs`, `iconc`) and writes (`_pH`, `_SAlk`). -/
structure Stream where
  phase : String
  ids : List String
  iconc : String → RawConc
  pH : ℝ
  SAlk : ℝ

/-- The `Ka` array `[Kw, Ka_nh, Ka_co2, Ka_ac, Ka_pr, Ka_bu, Ka_va]` passed to
`acid_base_rxn` and `calculate_alkalinity`; the source names its entries by
exactly these seven indices. -/
structure KaSet where
  Kw : ℝ
  Ka_nh : ℝ
  Ka_co2 : ℝ
  Ka_ac : ℝ
  Ka_pr : ℝ
  Ka_bu : ℝ
  Ka_va : ℝ

/-- The `components_molarity` dictionary.  Its keys are always a subset of the
eight identifiers below (they are the only keys `get_component_molarities` ever
writes and the only keys `acid_base_rxn`/`calculate_alkalinity` ever read), so
it is modelled as one optional value per identifier; `none` means the key is
absent from the dictionary. -/
structure Molarities where
  S_cat : Option ℝ
  S_an : Option ℝ
  S_IN : Option ℝ
  S_IC : Option ℝ
  S_ac : Option ℝ
  S_pro : Option ℝ
  S_bu : Option ℝ
  S_va : Option ℝ

/-- The empty `components_molarity` dictionary. -/
def Molarities.empty : Molarities :=
  ⟨none, none, none, none, none, none, none, none⟩

/-- `not components_molarity` (Python dict falsiness): true iff no key is
present. -/
def Molarities.isEmpty (cm : Molarities) : Bool :=
  cm.S_cat.isNone && cm.S_an.isNone && cm.S_IN.isNone && cm.S_IC.isNone &&
  cm.S_ac.isNone && cm.S_pro.isNone && cm.S_bu.isNone && cm.S_va.isNone

/-- `Ka2_co2 = 10**(-10.3)`, the hard-coded second dissociation constant of
carbonic acid (defined inline in both `acid_base_rxn` and
`calculate_alkalinity`). -/
def Ka2_co2 : ℝ := (10 : ℝ) ^ (-(10.3 : ℝ))

/-- `acid_base_rxn(h_ion, components_molarity, Ka)`: the charge-balance
residual.  Every line mirrors the source: dictionary reads use
`.get(key, 0)`, the dissociated species use `C * K / (K + h)`, carbonate is
`hco3 * Ka2_co2 / h`, and the returned sum is
`S_cat + h + nh4 - S_an - oh - hco3 - 2*co3 - ac - pro - bu - va`. -/
def acid_base_rxn (h_ion : ℝ) (cm : Molarities) (Ka : KaSet) : ℝ :=
  let S_cat := cm.S_cat.getD 0
  let S_an := cm.S_an.getD 0
  let S_IN := cm.S_IN.getD 0
  let S_IC := cm.S_IC.getD 0
  let S_ac := cm.S_ac.getD 0
  let S_pro := cm.S_pro.getD 0
  let S_bu := cm.S_bu.getD 0
  let S_va := cm.S_va.getD 0
  let oh_ion := Ka.Kw / h_ion
  let nh3 := S_IN * Ka.Ka_nh / (Ka.Ka_nh + h_ion)
  let nh4 := S_IN - nh3
  let hco3 := S_IC * Ka.Ka_co2 / (Ka.Ka_co2 + h_ion)
  let co3 := hco3 * Ka2_co2 / h_ion
  let ac_ion := S_ac * Ka.Ka_ac / (Ka.Ka_ac + h_ion)
  let pro_ion := S_pro * Ka.Ka_pr / (Ka.Ka_pr + h_ion)
  let bu_ion := S_bu * Ka.Ka_bu / (Ka.Ka_bu + h_ion)
  let va_ion := S_va * Ka.Ka_va / (Ka.Ka_va + h_ion)
  S_cat + h_ion + nh4 - S_an - oh_ion - hco3 - (2 * co3)
    - ac_ion - pro_ion - bu_ion - va_ion

/-- Exceptions relevant to the `solve_ph` call of `scipy.optimize.brenth`. -/
inductive PyError
  | valueError
  | runtimeError

/-- Outcome of one call of `scipy.optimize.brenth` (external library; modelled
from its documented interface): it returns the converged root, raises
`ValueError` when `f(a)` and `f(b)` do not have opposite signs, and — since the
source leaves `disp` at its default `True` — raises `RuntimeError` when the
iteration budget (`maxiter=100` here) is exhausted without convergence. -/
inductive BrenthOutcome
  | converged (root : ℝ)
  | noSignChange
  | maxiterExhausted

/-- The result of the `brenth(...)` call as an `Except` value. -/
def brenth : BrenthOutcome → Except PyError ℝ
  | .converged root => .ok root
  | .noSignChange => .error .valueError
  | .maxiterExhausted => .error .runtimeError

/-- `solve_ph`: wraps the `brenth` call in `try/except ValueError`; the
`ValueError` branch returns the default `1e-7` (pH 7); any other exception is
not caught and propagates to the caller. -/
def solve_ph (o : BrenthOutcome) : Except PyError ℝ :=
  match brenth o with
  | .ok h => .ok h
  | .error .valueError => .ok 1e-7
  | .error e => .error e

/-- `calculate_alkalinity(components_molarity, pH, Ka)`: recomputes
`h_ion = 10**(-pH)`, speciates every buffer at that `h_ion`, sums
`hco3 + 2*co3 + nh3 + ac + pro + bu + va + oh - h`, scales by 1000 and clamps
at zero with `max(0, alk_meq)`. -/
def calculate_alkalinity (cm : Molarities) (pH : ℝ) (Ka : KaSet) : ℝ :=
  let h_ion := (10 : ℝ) ^ (-pH)
  let S_IN := cm.S_IN.getD 0
  let S_IC := cm.S_IC.getD 0
  let S_ac := cm.S_ac.getD 0
  let S_pro := cm.S_pro.getD 0
  let S_bu := cm.S_bu.getD 0
  let S_va := cm.S_va.getD 0
  let oh_ion := Ka.Kw / h_ion
  let nh3 := S_IN * Ka.Ka_nh / (Ka.Ka_nh + h_ion)
  let hco3 := S_IC * Ka.Ka_co2 / (Ka.Ka_co2 + h_ion)
  let co3 := hco3 * Ka2_co2 / h_ion
  let ac_ion := S_ac * Ka.Ka_ac / (Ka.Ka_ac + h_ion)
  let pro_ion := S_pro * Ka.Ka_pr / (Ka.Ka_pr + h_ion)
  let bu_ion := S_bu * Ka.Ka_bu / (Ka.Ka_bu + h_ion)
  let va_ion := S_va * Ka.Ka_va / (Ka.Ka_va + h_ion)
  let alk_molar := hco3 + 2 * co3 + nh3 + ac_ion + pro_ion + bu_ion + va_ion
    + oh_ion - h_ion
  let alk_meq := alk_molar * 1000
  max 0 alk_meq

/-- `COD_EQ_AC = 64.0` (g COD / mol acetate). -/
def COD_EQ_AC : ℝ := 64.0

/-- `COD_EQ_PRO = 112.0` (g COD / mol propionate). -/
def COD_EQ_PRO : ℝ := 112.0

/-- `COD_EQ_BU = 160.0` (g COD / mol butyrate). -/
def COD_EQ_BU : ℝ := 160.0

/-- `COD_EQ_VA = 208.0` (g COD / mol valerate). -/
def COD_EQ_VA : ℝ := 208.0

/-- `required_comps` from `get_component_molarities`. -/
def required_comps : List String :=
  ["S_cat", "S_an", "S_IC", "S_IN", "S_ac", "S_pro", "S_bu", "S_va"]

/-- The extraction loop of `get_component_molarities`: a key enters the
`concentrations` dict iff it occurs in `stream.components.IDs` and in
`required_comps`; its value is the finite float read from `stream.iconc`, with
non-finite values and failed lookups defaulted to `0.0`. -/
def extractConc (s : Stream) (comp_id : String) : Option ℝ :=
  if comp_id ∈ s.ids ∧ comp_id ∈ required_comps then
    some (match s.iconc comp_id with
          | .finite x => x
          | .nonfinite => 0.0
          | .invalid => 0.0)
  else none

/-- `get_component_molarities(stream)`: per-key unit conversion of the
extracted concentrations.  `N_mw` and `C_mw` are the elemental molar masses the
source imports from the external `chemicals` package, kept as parameters; the
`if X > 0` guards of the source are preserved verbatim. -/
def get_component_molarities (N_mw C_mw : ℝ) (s : Stream) : Molarities where
  S_cat := (extractConc s "S_cat").map (fun c => c / 1000.0)
  S_an := (extractConc s "S_an").map (fun c => c / 1000.0)
  S_IN := (extractConc s "S_IN").map
    (fun c => if N_mw > 0 then c / (N_mw * 1000.0) else 0.0)
  S_IC := (extractConc s "S_IC").map
    (fun c => if C_mw > 0 then c / (C_mw * 1000.0) else 0.0)
  S_ac := (extractConc s "S_ac").map
    (fun c => if COD_EQ_AC > 0 then c / (COD_EQ_AC * 1000.0) else 0.0)
  S_pro := (extractConc s "S_pro").map
    (fun c => if COD_EQ_PRO > 0 then c / (COD_EQ_PRO * 1000.0) else 0.0)
  S_bu := (extractConc s "S_bu").map
    (fun c => if COD_EQ_BU > 0 then c / (COD_EQ_BU * 1000.0) else 0.0)
  S_va := (extractConc s "S_va").map
    (fun c => if COD_EQ_VA > 0 then c / (COD_EQ_VA * 1000.0) else 0.0)

/-- The `Ka` array built in `update_ph_and_alkalinity` from
`pKa_base = [14.0, 9.25, 6.35, 4.76, 4.88, 4.82, 4.86]` via `10**(-pKa)`. -/
def Ka_default : KaSet where
  Kw := (10 : ℝ) ^ (-(14.0 : ℝ))
  Ka_nh := (10 : ℝ) ^ (-(9.25 : ℝ))
  Ka_co2 := (10 : ℝ) ^ (-(6.35 : ℝ))
  Ka_ac := (10 : ℝ) ^ (-(4.76 : ℝ))
  Ka_pr := (10 : ℝ) ^ (-(4.88 : ℝ))
  Ka_bu := (10 : ℝ) ^ (-(4.82 : ℝ))
  Ka_va := (10 : ℝ) ^ (-(4.86 : ℝ))

/-- `update_ph_and_alkalinity(stream)`: phase check, normalization, dict
emptiness check, solve, alkalinity, write-back of `_pH` and `_SAlk`.  The
`brenth` outcome is a parameter (see `BrenthOutcome`); an uncaught exception
from `solve_ph` aborts the call, so the function returns `Except`.  The
source's local variables `Ka`, `components_molarity`, `pH` and `alk` are
inlined at their (single-assignment) use sites. -/
def update_ph_and_alkalinity (N_mw C_mw : ℝ) (o : BrenthOutcome) (s : Stream) :
    Except PyError Stream :=
  if s.phase ≠ "l" then
    .ok { s with pH := 7.0, SAlk := 0.0 }
  else if (get_component_molarities N_mw C_mw s).isEmpty then
    .ok { s with pH := 7.0, SAlk := 2.5 * 1000 }
  else
    match solve_ph o with
    | .error e => .error e
    | .ok h_ion =>
      .ok { s with
        pH := if h_ion > 0 then -(Real.logb 10 h_ion) else 14.0,
        SAlk := calculate_alkalinity (get_component_molarities N_mw C_mw s)
          (if h_ion > 0 then -(Real.logb 10 h_ion) else 14.0) Ka_default }

/-! ### Concrete helper values used by witnesses and counterexamples -/

/-- A dissociation-constant set with every entry equal to 1, used to
instantiate universally quantified theorems at a concrete input. -/
def KaOne : KaSet := ⟨1, 1, 1, 1, 1, 1, 1⟩

@[simp] lemma empty_S_cat : Molarities.empty.S_cat = none := rfl

@[simp] lemma empty_S_an : Molarities.empty.S_an = none := rfl

@[simp] lemma empty_S_IN : Molarities.empty.S_IN = none := rfl

@[simp] lemma empty_S_IC : Molarities.empty.S_IC = none := rfl

@[simp] lemma empty_S_ac : Molarities.empty.S_ac = none := rfl

@[simp] lemma empty_S_pro : Molarities.empty.S_pro = none := rfl

@[simp] lemma empty_S_bu : Molarities.empty.S_bu = none := rfl

@[simp] lemma empty_S_va : Molarities.empty.S_va = none := rfl

/-! ### C1 -/

/-- C1: for every trial hydrogen-ion concentration `h > 0`, every concentration
mapping (absent keys read as 0) and every dissociation-constant set,
`acid_base_rxn` returns exactly
`S_cat + h + (S_IN - nh3) - S_an - Kw/h - hco3 - 2*co3 - ac - pro - bu - va`,
where each deprotonated concentration is `C_tot * K / (K + h)`, carbonate is
`hco3 * 10^(-10.3) / h`, and hydroxide is `Kw / h`. -/
theorem C1_acid_base_rxn_charge_balance (h : ℝ) (hpos : 0 < h)
    (cm : Molarities) (Ka : KaSet) :
    acid_base_rxn h cm Ka =
      cm.S_cat.getD 0 + h
        + (cm.S_IN.getD 0 - cm.S_IN.getD 0 * Ka.Ka_nh / (Ka.Ka_nh + h))
        - cm.S_an.getD 0
        - Ka.Kw / h
        - cm.S_IC.getD 0 * Ka.Ka_co2 / (Ka.Ka_co2 + h)
        - 2 * (cm.S_IC.getD 0 * Ka.Ka_co2 / (Ka.Ka_co2 + h)
            * ((10 : ℝ) ^ (-(10.3 : ℝ))) / h)
        - cm.S_ac.getD 0 * Ka.Ka_ac / (Ka.Ka_ac + h)
        - cm.S_pro.getD 0 * Ka.Ka_pr / (Ka.Ka_pr + h)
        - cm.S_bu.getD 0 * Ka.Ka_bu / (Ka.Ka_bu + h)
        - cm.S_va.getD 0 * Ka.Ka_va / (Ka.Ka_va + h) := rfl

/-- C1 witness: the theorem applied at `h = 1`, the empty mapping and unit
dissociation constants. -/
theorem C1_witness :
    acid_base_rxn 1 Molarities.empty KaOne =
      Molarities.empty.S_cat.getD 0 + 1
        + (Molarities.empty.S_IN.getD 0
            - Molarities.empty.S_IN.getD 0 * KaOne.Ka_nh / (KaOne.Ka_nh + 1))
        - Molarities.empty.S_an.getD 0
        - KaOne.Kw / 1
        - Molarities.empty.S_IC.getD 0 * KaOne.Ka_co2 / (KaOne.Ka_co2 + 1)
        - 2 * (Molarities.empty.S_IC.getD 0 * KaOne.Ka_co2 / (KaOne.Ka_co2 + 1)
            * ((10 : ℝ) ^ (-(10.3 : ℝ))) / 1)
        - Molarities.empty.S_ac.getD 0 * KaOne.Ka_ac / (KaOne.Ka_ac + 1)
        - Molarities.empty.S_pro.getD 0 * KaOne.Ka_pr / (KaOne.Ka_pr + 1)
        - Molarities.empty.S_bu.getD 0 * KaOne.Ka_bu / (KaOne.Ka_bu + 1)
        - Molarities.empty.S_va.getD 0 * KaOne.Ka_va / (KaOne.Ka_va + 1) :=
  C1_acid_base_rxn_charge_balance 1 one_pos Molarities.empty KaOne

/-! ### C3 -/

/-- C3 counterexample: an exhausted iteration budget is a root-finder failure
on which `solve_ph` does not return the neutral default `1e-7`: the
`RuntimeError` raised by `brenth` (with its default `disp=True`) is not caught
by `except ValueError` and propagates. -/
theorem C3_counterexample_maxiter_propagates :
    solve_ph BrenthOutcome.maxiterExhausted ≠ Except.ok (1e-7 : ℝ) := by
  simp [solve_ph, brenth]

/-- C3 amended: when bracketing fails with no sign change, `brenth` raises
`ValueError`, which `solve_ph` catches, returning the neutral default `1e-7`
(pH 7) without propagating any exception; when the 100-iteration budget is
exhausted without convergence, `brenth` raises `RuntimeError`, which
`solve_ph` does not catch, so it propagates to the caller. -/
theorem C3_amended_only_valueError_defaulted :
    solve_ph BrenthOutcome.noSignChange = Except.ok (1e-7 : ℝ) ∧
    solve_ph BrenthOutcome.maxiterExhausted =
      Except.error PyError.runtimeError := by
  exact ⟨rfl, rfl⟩

/-! ### C4 -/

/-- C4: for every concentration mapping, pH and dissociation-constant set,
`calculate_alkalinity` returns
`max(0, 1000 * (hco3 + 2*co3 + nh3 + ac + pro + bu + va + oh - h))` with
`h = 10^(-pH)` and all species fractions speciated at that `h`; in particular
the returned alkalinity is always nonnegative. -/
theorem C4_calculate_alkalinity_formula (cm : Molarities) (pH : ℝ)
    (Ka : KaSet) :
    calculate_alkalinity cm pH Ka =
      max 0 (1000 *
        (cm.S_IC.getD 0 * Ka.Ka_co2 / (Ka.Ka_co2 + (10 : ℝ) ^ (-pH))
          + 2 * (cm.S_IC.getD 0 * Ka.Ka_co2 / (Ka.Ka_co2 + (10 : ℝ) ^ (-pH))
              * ((10 : ℝ) ^ (-(10.3 : ℝ))) / (10 : ℝ) ^ (-pH))
          + cm.S_IN.getD 0 * Ka.Ka_nh / (Ka.Ka_nh + (10 : ℝ) ^ (-pH))
          + cm.S_ac.getD 0 * Ka.Ka_ac / (Ka.Ka_ac + (10 : ℝ) ^ (-pH))
          + cm.S_pro.getD 0 * Ka.Ka_pr / (Ka.Ka_pr + (10 : ℝ) ^ (-pH))
          + cm.S_bu.getD 0 * Ka.Ka_bu / (Ka.Ka_bu + (10 : ℝ) ^ (-pH))
          + cm.S_va.getD 0 * Ka.Ka_va / (Ka.Ka_va + (10 : ℝ) ^ (-pH))
          + Ka.Kw / (10 : ℝ) ^ (-pH)
          - (10 : ℝ) ^ (-pH))) ∧
    0 ≤ calculate_alkalinity cm pH Ka := by
  constructor
  · show max 0 _ = max 0 _
    congr 1
    unfold Ka2_co2
    ring
  · exact le_max_left 0 _

/-! ### C8 -/

/-- A liquid stream that carries the component `S_cat` at concentration zero
(all eight required concentrations extract to zero, but the dictionary built
from it is not empty). -/
def sAllZero : Stream :=
  ⟨"l", ["S_cat"], fun _ => RawConc.finite 0, 7.0, 0.0⟩

/-- C8 counterexample: a defaulted solve (bracketing failure, `ValueError`
caught) returns exactly the same value as a successful solve that converged to
`1e-7` — both from `solve_ph` and from `update_ph_and_alkalinity` — so the
caller cannot distinguish the defaulted outcome through any returned status. -/
theorem C8_counterexample_no_status :
    solve_ph (BrenthOutcome.converged 1e-7) = solve_ph BrenthOutcome.noSignChange ∧
    update_ph_and_alkalinity 14.0067 12.011 (BrenthOutcome.converged 1e-7) sAllZero =
      update_ph_and_alkalinity 14.0067 12.011 BrenthOutcome.noSignChange sAllZero := by
  exact ⟨rfl, rfl⟩

/-- C8 amended: the root-finder fallback is reported only through a printed
warning; neither `solve_ph` nor `update_ph_and_alkalinity` returns any status
value, and the defaulted return `1e-7` coincides with the return of a solve
that converged to `1e-7`: `solve_ph` returns `ok 1e-7` exactly when `brenth`
failed with no sign change or genuinely converged to `1e-7`. -/
theorem C8_amended_default_indistinguishable (o : BrenthOutcome) :
    solve_ph o = Except.ok (1e-7 : ℝ) ↔
      o = BrenthOutcome.noSignChange ∨ o = BrenthOutcome.converged 1e-7 := by
  cases o <;> simp [solve_ph, brenth]

/-! ### C2 -/

/-- `acid_base_rxn` written out with its intermediate variables substituted
(carbonate shown via the constant `Ka2_co2`). -/
lemma acid_base_rxn_eval (h : ℝ) (cm : Molarities) (Ka : KaSet) :
    acid_base_rxn h cm Ka =
      cm.S_cat.getD 0 + h
        + (cm.S_IN.getD 0 - cm.S_IN.getD 0 * Ka.Ka_nh / (Ka.Ka_nh + h))
        - cm.S_an.getD 0
        - Ka.Kw / h
        - cm.S_IC.getD 0 * Ka.Ka_co2 / (Ka.Ka_co2 + h)
        - 2 * (cm.S_IC.getD 0 * Ka.Ka_co2 / (Ka.Ka_co2 + h) * Ka2_co2 / h)
        - cm.S_ac.getD 0 * Ka.Ka_ac / (Ka.Ka_ac + h)
        - cm.S_pro.getD 0 * Ka.Ka_pr / (Ka.Ka_pr + h)
        - cm.S_bu.getD 0 * Ka.Ka_bu / (Ka.Ka_bu + h)
        - cm.S_va.getD 0 * Ka.Ka_va / (Ka.Ka_va + h) := rfl

/-- On the empty mapping every buffer term of the charge balance vanishes and
only the free proton and hydroxide terms remain. -/
lemma acid_base_rxn_empty (h : ℝ) (Ka : KaSet) :
    acid_base_rxn h Molarities.empty Ka = h - Ka.Kw / h := by
  rw [acid_base_rxn_eval]
  simp

/-- Rewrites the module's `10 ** (-pKa)` constants as ordinary inverse powers. -/
lemma ten_rpow_neg_nat (n : ℕ) :
    (10 : ℝ) ^ (-(n : ℝ)) = ((10 : ℝ) ^ n)⁻¹ := by
  rw [show (-(n : ℝ)) = ((-(n : ℤ) : ℤ) : ℝ) by push_cast; ring]
  rw [Real.rpow_intCast, zpow_neg, zpow_natCast]

/-- C2 counterexample: at the all-zero concentration mapping (all values finite
and nonnegative) and the module's fixed dissociation constants, the
charge-balance function does not decrease from `h₁ = 1e-8` to `h₂ = 1e-6`
inside the bracket `(1e-14, 1)` — it strictly increases there, so the claimed
`acid_base_rxn h₁ > acid_base_rxn h₂` fails. -/
theorem C2_counterexample_not_decreasing :
    (1e-14 : ℝ) < 1e-8 ∧ (1e-8 : ℝ) < 1e-6 ∧ (1e-6 : ℝ) < 1 ∧
    ¬ (acid_base_rxn 1e-8 Molarities.empty Ka_default >
        acid_base_rxn 1e-6 Molarities.empty Ka_default) := by
  refine ⟨by norm_num, by norm_num, by norm_num, ?_⟩
  rw [acid_base_rxn_empty, acid_base_rxn_empty]
  have hKw : Ka_default.Kw = ((10 : ℝ) ^ (14 : ℕ))⁻¹ := by
    show (10 : ℝ) ^ (-(14.0 : ℝ)) = _
    rw [show (14.0 : ℝ) = ((14 : ℕ) : ℝ) by norm_num]
    exact ten_rpow_neg_nat 14
  rw [hKw]
  norm_num

/-- The pair term `C * K / (K + h)` does not increase when `h` increases,
provided `C` and `K` are nonnegative and `h` stays positive. -/
lemma pair_anti (C K h₁ h₂ : ℝ) (hC : 0 ≤ C) (hK : 0 ≤ K) (h1p : 0 < h₁)
    (h12 : h₁ ≤ h₂) : C * K / (K + h₂) ≤ C * K / (K + h₁) := by
  have d1 : 0 < K + h₁ := by linarith
  have d2 : 0 < K + h₂ := by linarith
  rw [div_le_div_iff d2 d1]
  exact mul_le_mul_of_nonneg_left (by linarith) (mul_nonneg hC hK)

/-- The pair term `C * K / (K + h)` is nonnegative for nonnegative data. -/
lemma pair_nonneg (C K h : ℝ) (hC : 0 ≤ C) (hK : 0 ≤ K) (hp : 0 < h) :
    0 ≤ C * K / (K + h) :=
  div_nonneg (mul_nonneg hC hK) (by linarith)

/-- C2 amended: for every concentration mapping with all values nonnegative
and nonnegative dissociation constants, `acid_base_rxn` is strictly
*increasing* (not decreasing) in `h` over the bracket `(1e-14, 1)`: raising `h`
raises the free-proton and ammonium terms and suppresses every negatively
signed term, so for `h₁ < h₂` in the bracket,
`acid_base_rxn h₁ < acid_base_rxn h₂`.  (This still yields a unique sign
change and justifies the bracketing method; only the direction stated by the
claim is wrong.) -/
theorem C2_amended_strictly_increasing (cm : Molarities) (Ka : KaSet)
    (hSIN : 0 ≤ cm.S_IN.getD 0) (hSIC : 0 ≤ cm.S_IC.getD 0)
    (hSac : 0 ≤ cm.S_ac.getD 0) (hSpro : 0 ≤ cm.S_pro.getD 0)
    (hSbu : 0 ≤ cm.S_bu.getD 0) (hSva : 0 ≤ cm.S_va.getD 0)
    (hKw : 0 ≤ Ka.Kw) (hKnh : 0 ≤ Ka.Ka_nh) (hKco2 : 0 ≤ Ka.Ka_co2)
    (hKac : 0 ≤ Ka.Ka_ac) (hKpr : 0 ≤ Ka.Ka_pr) (hKbu : 0 ≤ Ka.Ka_bu)
    (hKva : 0 ≤ Ka.Ka_va)
    (h₁ h₂ : ℝ) (hlo : 1e-14 < h₁) (hlt : h₁ < h₂) (hhi : h₂ < 1) :
    acid_base_rxn h₁ cm Ka < acid_base_rxn h₂ cm Ka := by
  have h1p : 0 < h₁ := lt_trans (by norm_num) hlo
  have h2p : 0 < h₂ := lt_trans h1p hlt
  have h12 : h₁ ≤ h₂ := le_of_lt hlt
  have hK2 : 0 ≤ Ka2_co2 := le_of_lt (Real.rpow_pos_of_pos (by norm_num) _)
  have hnh : cm.S_IN.getD 0 * Ka.Ka_nh / (Ka.Ka_nh + h₂) ≤
      cm.S_IN.getD 0 * Ka.Ka_nh / (Ka.Ka_nh + h₁) :=
    pair_anti _ _ _ _ hSIN hKnh h1p h12
  have hhco3 : cm.S_IC.getD 0 * Ka.Ka_co2 / (Ka.Ka_co2 + h₂) ≤
      cm.S_IC.getD 0 * Ka.Ka_co2 / (Ka.Ka_co2 + h₁) :=
    pair_anti _ _ _ _ hSIC hKco2 h1p h12
  have hhco3n : 0 ≤ cm.S_IC.getD 0 * Ka.Ka_co2 / (Ka.Ka_co2 + h₁) :=
    pair_nonneg _ _ _ hSIC hKco2 h1p
  have hco3 : cm.S_IC.getD 0 * Ka.Ka_co2 / (Ka.Ka_co2 + h₂) * Ka2_co2 / h₂ ≤
      cm.S_IC.getD 0 * Ka.Ka_co2 / (Ka.Ka_co2 + h₁) * Ka2_co2 / h₁ :=
    div_le_div (mul_nonneg hhco3n hK2)
      (mul_le_mul_of_nonneg_right hhco3 hK2) h1p h12
  have hac : cm.S_ac.getD 0 * Ka.Ka_ac / (Ka.Ka_ac + h₂) ≤
      cm.S_ac.getD 0 * Ka.Ka_ac / (Ka.Ka_ac + h₁) :=
    pair_anti _ _ _ _ hSac hKac h1p h12
  have hpr : cm.S_pro.getD 0 * Ka.Ka_pr / (Ka.Ka_pr + h₂) ≤
      cm.S_pro.getD 0 * Ka.Ka_pr / (Ka.Ka_pr + h₁) :=
    pair_anti _ _ _ _ hSpro hKpr h1p h12
  have hbu : cm.S_bu.getD 0 * Ka.Ka_bu / (Ka.Ka_bu + h₂) ≤
      cm.S_bu.getD 0 * Ka.Ka_bu / (Ka.Ka_bu + h₁) :=
    pair_anti _ _ _ _ hSbu hKbu h1p h12
  have hva : cm.S_va.getD 0 * Ka.Ka_va / (Ka.Ka_va + h₂) ≤
      cm.S_va.getD 0 * Ka.Ka_va / (Ka.Ka_va + h₁) :=
    pair_anti _ _ _ _ hSva hKva h1p h12
  have hoh : Ka.Kw / h₂ ≤ Ka.Kw / h₁ := by
    rw [div_le_div_iff h2p h1p]
    exact mul_le_mul_of_nonneg_left h12 hKw
  rw [acid_base_rxn_eval, acid_base_rxn_eval]
  linarith

/-- C2 amended witness: the amended theorem applied at the empty mapping, unit
constants, `h₁ = 1/2` and `h₂ = 3/4`. -/
theorem C2_amended_witness :
    acid_base_rxn (1 / 2) Molarities.empty KaOne <
      acid_base_rxn (3 / 4) Molarities.empty KaOne :=
  C2_amended_strictly_increasing Molarities.empty KaOne
    (by simp) (by simp) (by simp) (by simp) (by simp) (by simp)
    zero_le_one zero_le_one zero_le_one zero_le_one zero_le_one zero_le_one
    zero_le_one
    (1 / 2) (3 / 4) (by norm_num) (by norm_num) (by norm_num)

/-! ### C5 -/

/-- C5: for every extracted input concentration, the normalizer converts
`S_cat` and `S_an` by dividing by 1000 (no molecular weight), `S_IN` by
`N_mw * 1000`, `S_IC` by `C_mw * 1000`, and the four VFAs by their fixed
COD-equivalent weights 64.0, 112.0, 160.0, 208.0 times 1000. -/
theorem C5_normalizer_conversions (N_mw C_mw : ℝ) (hN : 0 < N_mw)
    (hC : 0 < C_mw) (s : Stream) :
    (get_component_molarities N_mw C_mw s).S_cat =
      (extractConc s "S_cat").map (fun c => c / 1000) ∧
    (get_component_molarities N_mw C_mw s).S_an =
      (extractConc s "S_an").map (fun c => c / 1000) ∧
    (get_component_molarities N_mw C_mw s).S_IN =
      (extractConc s "S_IN").map (fun c => c / (N_mw * 1000)) ∧
    (get_component_molarities N_mw C_mw s).S_IC =
      (extractConc s "S_IC").map (fun c => c / (C_mw * 1000)) ∧
    (get_component_molarities N_mw C_mw s).S_ac =
      (extractConc s "S_ac").map (fun c => c / (64.0 * 1000)) ∧
    (get_component_molarities N_mw C_mw s).S_pro =
      (extractConc s "S_pro").map (fun c => c / (112.0 * 1000)) ∧
    (get_component_molarities N_mw C_mw s).S_bu =
      (extractConc s "S_bu").map (fun c => c / (160.0 * 1000)) ∧
    (get_component_molarities N_mw C_mw s).S_va =
      (extractConc s "S_va").map (fun c => c / (208.0 * 1000)) := by
  refine ⟨?_, ?_, ?_, ?_, ?_, ?_, ?_, ?_⟩
  · cases hx : extractConc s "S_cat" <;>
      simp [get_component_molarities, hx] <;> norm_num
  · cases hx : extractConc s "S_an" <;>
      simp [get_component_molarities, hx] <;> norm_num
  · cases hx : extractConc s "S_IN" <;>
      simp [get_component_molarities, hx, if_pos hN] <;> norm_num
  · cases hx : extractConc s "S_IC" <;>
      simp [get_component_molarities, hx, if_pos hC] <;> norm_num
  · cases hx : extractConc s "S_ac" <;>
      simp [get_component_molarities, COD_EQ_AC, hx] <;> norm_num
  · cases hx : extractConc s "S_pro" <;>
      simp [get_component_molarities, COD_EQ_PRO, hx] <;> norm_num
  · cases hx : extractConc s "S_bu" <;>
      simp [get_component_molarities, COD_EQ_BU, hx] <;> norm_num
  · cases hx : extractConc s "S_va" <;>
      simp [get_component_molarities, COD_EQ_VA, hx] <;> norm_num

/-- C5 witness: the theorem applied at the molar masses of nitrogen and carbon
used by the source (`14.0067`, `12.011`) and a concrete stream. -/
theorem C5_witness :
    (get_component_molarities 14.0067 12.011 sAllZero).S_cat =
      (extractConc sAllZero "S_cat").map (fun c => c / 1000) ∧
    (get_component_molarities 14.0067 12.011 sAllZero).S_an =
      (extractConc sAllZero "S_an").map (fun c => c / 1000) ∧
    (get_component_molarities 14.0067 12.011 sAllZero).S_IN =
      (extractConc sAllZero "S_IN").map (fun c => c / (14.0067 * 1000)) ∧
    (get_component_molarities 14.0067 12.011 sAllZero).S_IC =
      (extractConc sAllZero "S_IC").map (fun c => c / (12.011 * 1000)) ∧
    (get_component_molarities 14.0067 12.011 sAllZero).S_ac =
      (extractConc sAllZero "S_ac").map (fun c => c / (64.0 * 1000)) ∧
    (get_component_molarities 14.0067 12.011 sAllZero).S_pro =
      (extractConc sAllZero "S_pro").map (fun c => c / (112.0 * 1000)) ∧
    (get_component_molarities 14.0067 12.011 sAllZero).S_bu =
      (extractConc sAllZero "S_bu").map (fun c => c / (160.0 * 1000)) ∧
    (get_component_molarities 14.0067 12.011 sAllZero).S_va =
      (extractConc sAllZero "S_va").map (fun c => c / (208.0 * 1000)) :=
  C5_normalizer_conversions 14.0067 12.011 (by norm_num) (by norm_num) sAllZero

/-! ### C7 -/

/-- A liquid stream whose accessor reports a finite *negative* concentration
for `S_cat`. -/
def sNeg : Stream :=
  ⟨"l", ["S_cat"], fun _ => RawConc.finite (-1), 7.0, 0.0⟩

/-- C7 counterexample: the normalizer applies no sign check, so a stream whose
accessor reports the finite value `-1` for `S_cat` produces a strictly
negative entry in the output mapping, contradicting the claimed invariant. -/
theorem C7_counterexample_negative_entry :
    (get_component_molarities 14.0067 12.011 sNeg).S_cat.getD 0 < 0 := by
  have hmem : ("S_cat" ∈ sNeg.ids ∧ "S_cat" ∈ required_comps) := by
    constructor <;> decide
  have hx : extractConc sNeg "S_cat" = some (-1) := by
    unfold extractConc
    rw [if_pos hmem]
    rfl
  simp [get_component_molarities, hx]
  norm_num

/-- A present key whose raw value is nonnegative (or defaulted) stays
nonnegative through extraction. -/
lemma extract_nonneg (s : Stream) (k : String)
    (hic : ∀ key x, s.iconc key = RawConc.finite x → 0 ≤ x)
    (c : ℝ) (hc : extractConc s k = some c) : 0 ≤ c := by
  unfold extractConc at hc
  split at hc
  · cases hic2 : s.iconc k with
    | finite x =>
      simp [hic2] at hc
      subst hc
      exact hic k x hic2
    | nonfinite =>
      simp [hic2] at hc
      subst hc
      norm_num
    | invalid =>
      simp [hic2] at hc
      subst hc
      norm_num
  · cases hc

/-- Nonnegativity is preserved by the per-key conversion step. -/
lemma map_getD_nonneg (o : Option ℝ) (f : ℝ → ℝ)
    (ho : ∀ c, o = some c → 0 ≤ c) (hf : ∀ c, 0 ≤ c → 0 ≤ f c) :
    0 ≤ (o.map f).getD 0 := by
  cases o with
  | none => simp
  | some c => simpa using hf c (ho c rfl)

/-- C7 amended: missing components and non-finite lookups map to zero, and
*provided every finite concentration the stream's accessor reports is
nonnegative*, every entry of the produced mapping is nonnegative (the
normalizer itself never introduces a negative value, but it passes raw
negative inputs through unchecked). -/
theorem C7_amended_nonneg_under_nonneg_inputs (N_mw C_mw : ℝ) (s : Stream)
    (hic : ∀ key x, s.iconc key = RawConc.finite x → 0 ≤ x) :
    0 ≤ (get_component_molarities N_mw C_mw s).S_cat.getD 0 ∧
    0 ≤ (get_component_molarities N_mw C_mw s).S_an.getD 0 ∧
    0 ≤ (get_component_molarities N_mw C_mw s).S_IN.getD 0 ∧
    0 ≤ (get_component_molarities N_mw C_mw s).S_IC.getD 0 ∧
    0 ≤ (get_component_molarities N_mw C_mw s).S_ac.getD 0 ∧
    0 ≤ (get_component_molarities N_mw C_mw s).S_pro.getD 0 ∧
    0 ≤ (get_component_molarities N_mw C_mw s).S_bu.getD 0 ∧
    0 ≤ (get_component_molarities N_mw C_mw s).S_va.getD 0 := by
  have hdiv : ∀ c : ℝ, 0 ≤ c → 0 ≤ c / 1000.0 := by
    intro c hc
    positivity
  have hguard : ∀ w : ℝ, ∀ c : ℝ, 0 ≤ c →
      0 ≤ (if w > 0 then c / (w * 1000.0) else 0.0) := by
    intro w c hc
    split
    case isTrue hw => positivity
    case isFalse hw => norm_num
  simp only [get_component_molarities]
  refine ⟨?_, ?_, ?_, ?_, ?_, ?_, ?_, ?_⟩
  · exact map_getD_nonneg _ _ (extract_nonneg s _ hic) hdiv
  · exact map_getD_nonneg _ _ (extract_nonneg s _ hic) hdiv
  · exact map_getD_nonneg _ _ (extract_nonneg s _ hic) (hguard N_mw)
  · exact map_getD_nonneg _ _ (extract_nonneg s _ hic) (hguard C_mw)
  · exact map_getD_nonneg _ _ (extract_nonneg s _ hic) (hguard COD_EQ_AC)
  · exact map_getD_nonneg _ _ (extract_nonneg s _ hic) (hguard COD_EQ_PRO)
  · exact map_getD_nonneg _ _ (extract_nonneg s _ hic) (hguard COD_EQ_BU)
  · exact map_getD_nonneg _ _ (extract_nonneg s _ hic) (hguard COD_EQ_VA)

/-- C7 amended witness: the amended theorem applied at a concrete stream whose
finite raw values are all zero. -/
theorem C7_amended_witness :
    0 ≤ (get_component_molarities 14.0067 12.011 sAllZero).S_cat.getD 0 ∧
    0 ≤ (get_component_molarities 14.0067 12.011 sAllZero).S_an.getD 0 ∧
    0 ≤ (get_component_molarities 14.0067 12.011 sAllZero).S_IN.getD 0 ∧
    0 ≤ (get_component_molarities 14.0067 12.011 sAllZero).S_IC.getD 0 ∧
    0 ≤ (get_component_molarities 14.0067 12.011 sAllZero).S_ac.getD 0 ∧
    0 ≤ (get_component_molarities 14.0067 12.011 sAllZero).S_pro.getD 0 ∧
    0 ≤ (get_component_molarities 14.0067 12.011 sAllZero).S_bu.getD 0 ∧
    0 ≤ (get_component_molarities 14.0067 12.011 sAllZero).S_va.getD 0 :=
  C7_amended_nonneg_under_nonneg_inputs 14.0067 12.011 sAllZero
    (by
      intro key x hx
      simp [sAllZero, RawConc.finite.injEq] at hx
      subst hx
      norm_num)

/-! ### C6 -/

/-- `calculate_alkalinity` written out with its intermediate variables
substituted. -/
lemma calculate_alkalinity_eval (cm : Molarities) (pH : ℝ) (Ka : KaSet) :
    calculate_alkalinity cm pH Ka =
      max 0 ((cm.S_IC.getD 0 * Ka.Ka_co2 / (Ka.Ka_co2 + (10 : ℝ) ^ (-pH))
        + 2 * (cm.S_IC.getD 0 * Ka.Ka_co2 / (Ka.Ka_co2 + (10 : ℝ) ^ (-pH))
            * Ka2_co2 / (10 : ℝ) ^ (-pH))
        + cm.S_IN.getD 0 * Ka.Ka_nh / (Ka.Ka_nh + (10 : ℝ) ^ (-pH))
        + cm.S_ac.getD 0 * Ka.Ka_ac / (Ka.Ka_ac + (10 : ℝ) ^ (-pH))
        + cm.S_pro.getD 0 * Ka.Ka_pr / (Ka.Ka_pr + (10 : ℝ) ^ (-pH))
        + cm.S_bu.getD 0 * Ka.Ka_bu / (Ka.Ka_bu + (10 : ℝ) ^ (-pH))
        + cm.S_va.getD 0 * Ka.Ka_va / (Ka.Ka_va + (10 : ℝ) ^ (-pH))
        + Ka.Kw / (10 : ℝ) ^ (-pH)
        - (10 : ℝ) ^ (-pH)) * 1000) := rfl

/-- The module's water constant `10 ** (-14.0)` as an inverse power. -/
lemma Ka_default_Kw : Ka_default.Kw = ((10 : ℝ) ^ (14 : ℕ))⁻¹ := by
  show (10 : ℝ) ^ (-(14.0 : ℝ)) = _
  rw [show (14.0 : ℝ) = ((14 : ℕ) : ℝ) by norm_num]
  exact ten_rpow_neg_nat 14

/-- The scientific literal `1e-7` as the rpow the logarithm lemmas expect. -/
lemma oneEm7_eq : (1e-7 : ℝ) = (10 : ℝ) ^ (-((7 : ℕ) : ℝ)) := by
  rw [ten_rpow_neg_nat]
  norm_num

/-- Reads the annotated alkalinity out of a completed annotator call
(`-1` is a sentinel for an aborted call and never arises below). -/
def okSAlk : Except PyError Stream → ℝ
  | .ok s => s.SAlk
  | .error _ => -1

/-- The molarity dictionary produced from `sAllZero`: only the key `S_cat` is
present (with value 0), so the dictionary is *not* empty. -/
lemma cm_sAllZero :
    get_component_molarities 14.0067 12.011 sAllZero =
      ⟨some 0, none, none, none, none, none, none, none⟩ := by
  have hmem : ("S_cat" ∈ sAllZero.ids ∧ "S_cat" ∈ required_comps) := by
    constructor <;> decide
  have hcat : extractConc sAllZero "S_cat" = some 0 := by
    unfold extractConc
    rw [if_pos hmem]
    rfl
  have hnone : ∀ k, k ≠ "S_cat" → extractConc sAllZero k = none := by
    intro k hk
    unfold extractConc
    rw [if_neg]
    rintro ⟨hin, -⟩
    exact hk (by simpa [sAllZero] using hin)
  simp only [get_component_molarities, hcat, hnone "S_an" (by decide),
    hnone "S_IN" (by decide), hnone "S_IC" (by decide),
    hnone "S_ac" (by decide), hnone "S_pro" (by decide),
    hnone "S_bu" (by decide), hnone "S_va" (by decide), Option.map_some,
    Option.map_none]
  norm_num

/-- At the dictionary `{S_cat: 0}` and pH 7 the computed alkalinity is exactly
zero: all buffer totals vanish and the hydroxide and proton terms cancel. -/
lemma alk_sAllZero :
    calculate_alkalinity ⟨some 0, none, none, none, none, none, none, none⟩
      (-(Real.logb 10 (1e-7 : ℝ))) Ka_default = 0 := by
  rw [calculate_alkalinity_eval]
  have hh : (10 : ℝ) ^ (-(-(Real.logb 10 (1e-7 : ℝ)))) = 1e-7 := by
    rw [neg_neg]
    exact Real.rpow_logb (by norm_num) (by norm_num) (by norm_num)
  rw [hh, Ka_default_Kw]
  norm_num

/-- C6 counterexample: `sAllZero` is a liquid stream whose eight extracted
required concentrations are all zero (its only modeled component, `S_cat`, has
concentration 0), yet the annotator does not short-circuit: the molarity
dictionary is nonempty, the solver is invoked (its outcome reaches the
result), and the annotated alkalinity is 0, not the claimed 2500 meq/L. -/
theorem C6_counterexample_all_zero_not_short_circuited :
    okSAlk (update_ph_and_alkalinity 14.0067 12.011
      (BrenthOutcome.converged 1e-7) sAllZero) = 0 ∧ (0 : ℝ) ≠ 2.5 * 1000 := by
  constructor
  · have hph : ¬ (sAllZero.phase ≠ "l") := by simp [sAllZero]
    have hne : (get_component_molarities 14.0067 12.011 sAllZero).isEmpty
        = false := by
      rw [cm_sAllZero]
      rfl
    have hsolve : solve_ph (BrenthOutcome.converged 1e-7) =
        Except.ok (1e-7 : ℝ) := rfl
    unfold update_ph_and_alkalinity
    rw [if_neg hph, hne]
    simp only [Bool.false_eq_true, if_false, hsolve]
    rw [if_pos (show (1e-7 : ℝ) > 0 by norm_num), cm_sAllZero]
    simp only [okSAlk]
    exact alk_sAllZero
  · norm_num

/-- A key that never occurs among the stream's component IDs is absent from
the extracted dictionary. -/
lemma extractConc_not_mem (s : Stream) (k : String) (hk : k ∉ s.ids) :
    extractConc s k = none := by
  unfold extractConc
  rw [if_neg]
  rintro ⟨hin, -⟩
  exact hk hin

/-- C6 amended: the degenerate short-circuit (pH 7.0, alkalinity 2500 meq/L,
solver not invoked) is taken exactly when the extracted dictionary is *empty*,
i.e. when none of the eight required component identifiers occurs among the
stream's component IDs — not when the extracted concentrations are all zero.
(The result is the same for every solver outcome `o`, which expresses that the
solver is never consulted.) -/
theorem C6_amended_empty_dict_short_circuit (N_mw C_mw : ℝ) (o : BrenthOutcome)
    (s : Stream) (hl : s.phase = "l")
    (hmiss : ∀ c ∈ required_comps, c ∉ s.ids) :
    update_ph_and_alkalinity N_mw C_mw o s =
      Except.ok { s with pH := 7.0, SAlk := 2.5 * 1000 } := by
  have h8 : ∀ k, k ∈ required_comps → extractConc s k = none := fun k hk =>
    extractConc_not_mem s k (hmiss k hk)
  have hempty : (get_component_molarities N_mw C_mw s).isEmpty = true := by
    simp [Molarities.isEmpty, get_component_molarities,
      h8 "S_cat" (by decide), h8 "S_an" (by decide), h8 "S_IN" (by decide),
      h8 "S_IC" (by decide), h8 "S_ac" (by decide), h8 "S_pro" (by decide),
      h8 "S_bu" (by decide), h8 "S_va" (by decide)]
  unfold update_ph_and_alkalinity
  rw [if_neg (by simp [hl]), if_pos hempty]

/-- A liquid stream none of whose components is among the eight required
identifiers. -/
def sNoComps : Stream :=
  ⟨"l", ["S_su"], fun _ => RawConc.finite 1, 7.0, 0.0⟩

/-- C6 amended witness: the amended theorem applied at a concrete liquid
stream carrying only `S_su`. -/
theorem C6_amended_witness :
    update_ph_and_alkalinity 14.0067 12.011 (BrenthOutcome.converged 1)
        sNoComps =
      Except.ok { sNoComps with pH := 7.0, SAlk := 2.5 * 1000 } :=
  C6_amended_empty_dict_short_circuit 14.0067 12.011
    (BrenthOutcome.converged 1) sNoComps rfl (by decide)

/-! ### C9 -/

/-- C9: whenever the annotator call completes, the resulting stream differs
from the input stream in at most the two scalar fields `_pH` and `_SAlk`: the
phase tag, the component-ID list and the concentration accessor are returned
unchanged. -/
theorem C9_frame_only_pH_SAlk (N_mw C_mw : ℝ) (o : BrenthOutcome)
    (s t : Stream) (h : update_ph_and_alkalinity N_mw C_mw o s = Except.ok t) :
    t.phase = s.phase ∧ t.ids = s.ids ∧ t.iconc = s.iconc := by
  unfold update_ph_and_alkalinity at h
  split at h
  · injection h with h
    subst h
    exact ⟨rfl, rfl, rfl⟩
  · split at h
    · injection h with h
      subst h
      exact ⟨rfl, rfl, rfl⟩
    · split at h
      · exact Except.noConfusion h
      · injection h with h
        subst h
        exact ⟨rfl, rfl, rfl⟩

/-- A gas-phase stream with arbitrary pre-existing annotations. -/
def sGas : Stream := ⟨"g", [], fun _ => RawConc.invalid, 3.0, 4.0⟩

/-- `sGas` after annotation: only the two scalar fields have changed. -/
def sGasOut : Stream := ⟨"g", [], fun _ => RawConc.invalid, 7.0, 0.0⟩

/-- C9 witness: the frame theorem applied to a concrete annotator call. -/
theorem C9_witness :
    sGasOut.phase = sGas.phase ∧ sGasOut.ids = sGas.ids ∧
      sGasOut.iconc = sGas.iconc :=
  C9_frame_only_pH_SAlk 14.0067 12.011 (BrenthOutcome.converged 1) sGas
    sGasOut rfl

/-! ### C10 -/

/-- Strict positivity of every entry of a `Ka` set. -/
def KaSet.AllPos (Ka : KaSet) : Prop :=
  0 < Ka.Kw ∧ 0 < Ka.Ka_nh ∧ 0 < Ka.Ka_co2 ∧ 0 < Ka.Ka_ac ∧ 0 < Ka.Ka_pr ∧
    0 < Ka.Ka_bu ∧ 0 < Ka.Ka_va

/-- The denominators of the divisions performed by `acid_base_rxn` at trial
hydrogen-ion concentration `h`, in source order: hydroxide (`h`), ammonia,
bicarbonate, carbonate (`h` again), and the four VFA pairs. -/
def acid_base_denominators (h : ℝ) (Ka : KaSet) : List ℝ :=
  [h, Ka.Ka_nh + h, Ka.Ka_co2 + h, h, Ka.Ka_ac + h, Ka.Ka_pr + h,
    Ka.Ka_bu + h, Ka.Ka_va + h]

/-- The denominators of the divisions performed by `calculate_alkalinity` at a
given pH: the same list at `h = 10^(-pH)`. -/
def alkalinity_denominators (pH : ℝ) (Ka : KaSet) : List ℝ :=
  acid_base_denominators ((10 : ℝ) ^ (-pH)) Ka

/-- Every member of a list of denominators is strictly positive. -/
def denomsPos (l : List ℝ) : Prop := ∀ d ∈ l, 0 < d

/-- C10: for every `h > 0` and strictly positive dissociation constants, every
denominator evaluated by `acid_base_rxn` is strictly positive, and for every
pH the same holds for `calculate_alkalinity` at `h = 10^(-pH) > 0`; no
division by zero can occur over the solver's bracket or at any finite pH. -/
theorem C10_no_division_by_zero (Ka : KaSet) (h pH : ℝ) (hKa : Ka.AllPos)
    (hp : 0 < h) :
    denomsPos (acid_base_denominators h Ka) ∧
      denomsPos (alkalinity_denominators pH Ka) := by
  obtain ⟨hKw, hKnh, hKco2, hKac, hKpr, hKbu, hKva⟩ := hKa
  have hrp : 0 < (10 : ℝ) ^ (-pH) := Real.rpow_pos_of_pos (by norm_num) _
  constructor
  · intro d hd
    fin_cases hd <;> linarith
  · intro d hd
    fin_cases hd <;> linarith

/-- C10 witness: the theorem applied at `h = 1`, `pH = 0` and unit constants. -/
theorem C10_witness :
    denomsPos (acid_base_denominators 1 KaOne) ∧
      denomsPos (alkalinity_denominators 0 KaOne) :=
  C10_no_division_by_zero KaOne 1 0
    (by simp [KaSet.AllPos, KaOne]) one_pos

end ADM1

end
